import Mathlib

/-!
Shallow embedding of the session-lifecycle core of `ipdb` (file
`src/ipdb/__main__.py`) and proofs about it.

The embedding follows the Python source function by function.  External
collaborators (the IPython debugger engine, the terminal, the file system)
are modelled at their boundary:

* the global interpreter state touched by the module (the active exception
  hook `sys.excepthook`, the attribute `BdbQuit_excepthook.excepthook_ori`,
  the currently handled traceback `sys.exc_info()[2]`, and
  `sys.last_traceback`) is gathered in the structure `SysState`;
* tracebacks and frames are opaque handles, modelled as `Nat`;
* observable actions (printing, constructing or resetting a debugger
  instance, entering an interactive session, running the target script)
  are recorded as an `Event` trace;
* the external debugger-engine constructor `debugger_cls` is modelled as
  returning a fresh instance whose startup-command list `rcLines` is empty
  (the engine itself is outside the specified boundary); an engine that
  refuses the `context` keyword (a `TypeError` in the source) is modelled
  by the flag `Config.acceptsContext`.
-/

namespace Ipdb

/-- A global exception hook value.  `bdbQuitExcepthook` is the sentinel hook
`BdbQuit_excepthook` imported from IPython; every other hook is an opaque,
numbered value. -/
inductive Hook
  | bdbQuitExcepthook
  | other (id : Nat)
deriving DecidableEq

/-- The process-wide interpreter state that `src/ipdb/__main__.py` reads or
writes: the active `sys.excepthook`, the recorded original hook
`BdbQuit_excepthook.excepthook_ori`, the traceback of the currently handled
exception (`sys.exc_info()[2]`, `none` when no exception is being handled),
and `sys.last_traceback` (`none` when unset). -/
structure SysState where
  excepthook : Hook
  excepthook_ori : Option Hook
  currentExcTb : Option Nat
  lastTb : Option Nat
deriving DecidableEq

/-- Ambient configuration discovered once at import time: the color scheme
`def_colors`, the shell startup lines `ipapp.exec_lines`, whether the engine
constructor `debugger_cls` accepts a `context` keyword argument, and whether
the constructed instance has a `shell` attribute. -/
structure Config where
  def_colors : String
  exec_lines : List String
  acceptsContext : Bool
  hasShell : Bool
deriving DecidableEq

/-- A constructed debugger instance: color scheme, context-line count
(`none` when the engine was constructed without one), and the startup
command list `rcLines`. -/
structure DebuggerInstance where
  colors : String
  context : Option Nat
  rcLines : List String
deriving DecidableEq

/-- Source line 73: `def_exec_lines = [line + '\n' for line in ipapp.exec_lines]`. -/
def def_exec_lines (cfg : Config) : List String :=
  cfg.exec_lines.map (fun line => line ++ "\n")

/-- Boundary model of `debugger_cls(def_colors, context=context)`: succeeds
with a fresh instance when the engine accepts the `context` keyword,
otherwise raises `TypeError` (modelled as `none`). -/
def debugger_cls_with_context (cfg : Config) (context : Nat) : Option DebuggerInstance :=
  if cfg.acceptsContext then
    some { colors := cfg.def_colors, context := some context, rcLines := [] }
  else none

/-- Boundary model of the fallback `debugger_cls(def_colors)`: always
succeeds with a fresh instance. -/
def debugger_cls_no_context (cfg : Config) : DebuggerInstance :=
  { colors := cfg.def_colors, context := none, rcLines := [] }

/-- Source lines 75-82 (`_init_pdb`): try to construct the engine with the
`context` keyword, fall back to constructing without it on `TypeError`, then
append `def_exec_lines` and the caller-supplied `commands` to `rcLines`. -/
def _init_pdb (cfg : Config) (context : Nat) (commands : List String) : DebuggerInstance :=
  let p :=
    match debugger_cls_with_context cfg context with
    | some q => q
    | none => debugger_cls_no_context cfg
  { p with rcLines := p.rcLines ++ def_exec_lines cfg ++ commands }

/-- Source lines 85-90 (`wrap_sys_excepthook`): if the active hook is not
the sentinel, record it in `excepthook_ori` and install the sentinel;
otherwise do nothing. -/
def wrap_sys_excepthook (s : SysState) : SysState :=
  if s.excepthook ≠ Hook.bdbQuitExcepthook then
    { s with
        excepthook_ori := some s.excepthook,
        excepthook := Hook.bdbQuitExcepthook }
  else s

/-- One observable action of the module: printing to stdout or stderr,
`traceback.print_exc()`, constructing a fresh debugger instance, resetting
it, entering an interactive session (`p.interaction(None, tb)` or
`p.set_trace(frame)`), delegating to the engine execution primitives, the
shell-state restoration, and one execution of the target script by the
runner loop (`pdb._runscript`). -/
inductive Event
  | printOut (line : String)
  | printErr (line : String)
  | printTraceback
  | mkInstance (p : DebuggerInstance)
  | resetInstance
  | interaction (tb : Nat)
  | setTraceCall (frame : Nat)
  | runStmt (statement : String)
  | runCallEv
  | runEvalEv (expression : String)
  | restoreShell
  | runScript
deriving DecidableEq

/-- True exactly on `Event.interaction` events (an interactive post-mortem
session being entered). -/
def isInteraction : Event → Bool
  | Event.interaction _ => true
  | _ => false

/-- True exactly on `Event.printErr` events. -/
def isPrintErr : Event → Bool
  | Event.printErr _ => true
  | _ => false

/-- True exactly on `Event.runScript` events. -/
def isRunScript : Event → Bool
  | Event.runScript => true
  | _ => false

/-- Source lines 93-138 (`set_trace`): install the hook guard, resolve the
frame (caller frame when omitted), build a fresh instance, enter the
interactive session at that frame, and on return restore the shell state
when the instance has a `shell` attribute.  The attribute-iteration block of
the source computes wrappers but never installs them (the `setattr` is
commented out), so it has no observable effect and is omitted. -/
def set_trace (cfg : Config) (frame : Option Nat) (callerFrame : Nat) (context : Nat)
    (s : SysState) : SysState × List Event :=
  let s1 := wrap_sys_excepthook s
  let f := frame.getD callerFrame
  let p := _init_pdb cfg context []
  (s1,
    [Event.mkInstance p, Event.setTraceCall f] ++
      (if cfg.hasShell then [Event.restoreShell] else []))

/-- Source lines 145-148: a `None` traceback argument is replaced by the
traceback of the currently handled exception, `sys.exc_info()[2]`. -/
def resolve_tb (tb : Option Nat) (s : SysState) : Option Nat :=
  match tb with
  | none => s.currentExcTb
  | some t => some t

/-- Source lines 141-150 (`post_mortem`): install the hook guard, build and
reset a fresh instance, resolve the traceback, and enter `p.interaction`
only when a traceback is available. -/
def post_mortem (cfg : Config) (tb : Option Nat) (s : SysState) : SysState × List Event :=
  match resolve_tb tb (wrap_sys_excepthook s) with
  | some t =>
      (wrap_sys_excepthook s,
        [Event.mkInstance (_init_pdb cfg 3 []), Event.resetInstance, Event.interaction t])
  | none =>
      (wrap_sys_excepthook s,
        [Event.mkInstance (_init_pdb cfg 3 []), Event.resetInstance])

/-- Source lines 153-154 (`pm`): `post_mortem(sys.last_traceback)`.  The
attribute read `sys.last_traceback` raises `AttributeError` when no
top-level exception has ever been recorded (modelled as `lastTb = none`),
and that raise happens while evaluating the argument — before `post_mortem`
is entered, so no hook is installed, no instance is built and no event
occurs: the call propagates the error with the state untouched
(`Except.error ()`). -/
def pm (cfg : Config) (s : SysState) : Except Unit (SysState × List Event) :=
  match s.lastTb with
  | none => Except.error ()
  | some t => Except.ok (post_mortem cfg (some t) s)

/-- Source lines 157-158 (`run`): `_init_pdb().run(statement, ...)` — note
that the source does not call `wrap_sys_excepthook` here. -/
def run (cfg : Config) (statement : String) (s : SysState) : SysState × List Event :=
  (s, [Event.mkInstance (_init_pdb cfg 3 []), Event.runStmt statement])

/-- Source lines 161-162 (`runcall`): `_init_pdb().runcall(...)` — no call
to `wrap_sys_excepthook`. -/
def runcall (cfg : Config) (s : SysState) : SysState × List Event :=
  (s, [Event.mkInstance (_init_pdb cfg 3 []), Event.runCallEv])

/-- Source lines 165-166 (`runeval`): `_init_pdb().runeval(expression, ...)`
— no call to `wrap_sys_excepthook`. -/
def runeval (cfg : Config) (expression : String) (s : SysState) : SysState × List Event :=
  (s, [Event.mkInstance (_init_pdb cfg 3 []), Event.runEvalEv expression])

/-- A Python exception as far as this module observes it: its `repr`
string, whether its class derives from `Exception` (system-exiting
exceptions such as `SystemExit` and `KeyboardInterrupt` derive only from
`BaseException`), and the traceback handle of the raise. -/
structure PyExc where
  reprStr : String
  isException : Bool
  tb : Nat
deriving DecidableEq

/-- Source lines 169-178 (`launch_ipdb_on_exception`): run the body; on an
exception whose class derives from `Exception`, print its `repr` to stderr,
call `post_mortem` on its traceback and suppress it; any other exception
propagates (the source handler is `except Exception`).  The result is the
final state, the event trace, and the exception that escapes the scope, if
any.  The body is modelled by its outcome: `none` for a normal exit, `some
e` when it raises `e`. -/
def launch_ipdb_on_exception (cfg : Config) (body : Option PyExc) (s : SysState) :
    SysState × List Event × Option PyExc :=
  match body with
  | none => (s, [], none)
  | some e =>
      if e.isException then
        ((post_mortem cfg (some e.tb) s).1,
          Event.printErr e.reprStr :: (post_mortem cfg (some e.tb) s).2,
          none)
      else (s, [], some e)

/-- The outcome of one execution of `pdb._runscript(mainpyfile)` in the
runner loop of `main` (source lines 235-255), together with the value of
`pdb._user_requested_quit` read after a normal return: the script ran to
completion, the debugger raised `Restart`, the script raised `SystemExit`
(carrying the printed form of the exit status), or it raised any other
uncaught exception. -/
inductive RunOutcome
  | completed (userRequestedQuit : Bool)
  | restart
  | sysExit (status : String)
  | uncaught (tb : Nat)
deriving DecidableEq

/-- Whether an iteration of the runner loop falls out of `while 1` (only
the `break` on `pdb._user_requested_quit`) or goes around again. -/
inductive LoopControl
  | stop
  | again
deriving DecidableEq

/-- The events of the `except:` branch of the runner loop (source lines
248-255): print the traceback, announce post-mortem, enter exactly one
interactive session at the failure traceback, then announce the restart. -/
def uncaughtEvents (mainpyfile : String) (t : Nat) : List Event :=
  [Event.printTraceback,
    Event.printOut "Uncaught exception. Entering post mortem debugging",
    Event.printOut "Running \x27cont\x27 or \x27step\x27 will restart the program",
    Event.interaction t,
    Event.printOut ("Post mortem debugger finished. The " ++ mainpyfile ++ " will be restarted")]

/-- One iteration of the `while 1` loop of `main` (source lines 235-255),
as a function of the outcome of `pdb._runscript`.  `argvTail` is
`sys.argv[1:]` as printed by the `Restart` branch. -/
def loop_body (mainpyfile : String) (argvTail : List String) :
    RunOutcome → LoopControl × List Event
  | RunOutcome.completed true => (LoopControl.stop, [])
  | RunOutcome.completed false =>
      (LoopControl.again, [Event.printOut "The program finished and will be restarted"])
  | RunOutcome.restart =>
      (LoopControl.again,
        [Event.printOut ("Restarting " ++ mainpyfile ++ " with arguments:"),
          Event.printOut ("\t" ++ String.intercalate " " argvTail)])
  | RunOutcome.sysExit status =>
      (LoopControl.again,
        [Event.printOut ("The program exited via sys.exit(). Exit status: " ++ status)])
  | RunOutcome.uncaught t => (LoopControl.again, uncaughtEvents mainpyfile t)

/-- The full runner loop, driven by the list of successive `_runscript`
outcomes: each iteration first executes the script (`Event.runScript`),
then handles its outcome, and either stops or consumes the next outcome. -/
def script_loop (mainpyfile : String) (argvTail : List String) :
    List RunOutcome → List Event
  | [] => []
  | o :: rest =>
      let r := loop_body mainpyfile argvTail o
      Event.runScript ::
        (r.2 ++
          (match r.1 with
            | LoopControl.stop => []
            | LoopControl.again => script_loop mainpyfile argvTail rest))

/-- Kernel-friendly model of `str.startswith`: list-of-characters version. -/
def listStartsWith : List Char → List Char → Bool
  | _, [] => true
  | [], _ :: _ => false
  | a :: as, b :: bs => a == b && listStartsWith as bs

/-- Model of `s.startswith(p)` on strings. -/
def strStartsWith (s p : String) : Bool :=
  listStartsWith s.toList p.toList

/-- Model of `s.endswith('=')`. -/
def strEndsWithEq (s : String) : Bool :=
  match s.toList.getLast? with
  | some c => c == '='
  | none => false

/-- Model of `posixpath.dirname`: take everything up to and including the
last slash, then strip trailing slashes unless the head is all slashes. -/
def dirname (p : String) : String :=
  let cs := p.toList
  match cs.reverse.findIdx? (fun c => c == '/') with
  | none => ""
  | some k =>
      let head := cs.take (cs.length - k)
      if head.all (fun c => c == '/') then String.mk head
      else String.mk ((head.reverse.dropWhile (fun c => c == '/')).reverse)

/-- The long-option table the source passes to `getopt.getopt` (source line
206) — note the entries erroneously keep their leading dashes, exactly as
in the source. -/
def longopts : List String := ["--help", "--command="]

/-- Split a long option at its first `=`, as `getopt.do_longs` does. -/
def splitAtEq : List Char → List Char × Option (List Char)
  | [] => ([], none)
  | c :: cs =>
      if c == '=' then ([], some cs)
      else
        let r := splitAtEq cs
        (c :: r.1, r.2)

/-- Model of `getopt.long_has_args`: match the option against `longopts`
by exact name, by name plus `=`, or as a unique non-ambiguous start of one
entry; report whether the matched option takes an argument. -/
def long_has_args (opt : String) : Except String (Bool × String) :=
  let possibilities := longopts.filter (fun o => strStartsWith o opt)
  if possibilities.isEmpty then
    Except.error ("option --" ++ opt ++ " not recognized")
  else if possibilities.contains opt then Except.ok (false, opt)
  else if possibilities.contains (opt ++ "=") then Except.ok (true, opt)
  else if 1 < possibilities.length then
    Except.error ("option --" ++ opt ++ " not a unique prefix")
  else
    let unique_match := possibilities.headD ""
    if strEndsWithEq unique_match then
      Except.ok (true, String.mk unique_match.toList.dropLast)
    else Except.ok (false, unique_match)

/-- Model of `getopt.do_longs` for one `--xxx[=value]` argument: returns
the produced option pairs, or the name of an option still waiting for its
argument from the next command-line word. -/
def do_longs_one (optRaw : String) : Except String (List (String × String) × Option String) :=
  let sp := splitAtEq optRaw.toList
  let opt := String.mk sp.1
  match long_has_args opt with
  | Except.error msg => Except.error msg
  | Except.ok (true, opt2) =>
      match sp.2 with
      | some v => Except.ok ([("--" ++ opt2, String.mk v)], none)
      | none => Except.ok ([], some ("--" ++ opt2))
  | Except.ok (false, opt2) =>
      match sp.2 with
      | some _ => Except.error ("option --" ++ opt ++ " must not have an argument")
      | none => Except.ok ([("--" ++ opt2, "")], none)

/-- Model of `getopt.do_shorts` for one `-xyz` cluster with the source
option string `hc:`: `h` takes no argument, `c` takes one (the rest of the
cluster, or the next word when the cluster ends), anything else is an
error.  Returns the produced pairs, or the name of the option waiting for
its argument from the next word. -/
def do_shorts_cluster : List Char → Except String (List (String × String) × Option String)
  | [] => Except.ok ([], none)
  | c :: cs =>
      if c == 'h' then
        match do_shorts_cluster cs with
        | Except.error msg => Except.error msg
        | Except.ok (os, need) => Except.ok (("-h", "") :: os, need)
      else if c == 'c' then
        if cs.isEmpty then Except.ok ([], some "-c")
        else Except.ok ([("-c", String.mk cs)], none)
      else Except.error ("option -" ++ String.mk [c] ++ " not recognized")

/-- Model of `getopt.getopt(args, 'hc:', ['--help', '--command='])` as
called on source line 206: consume leading option words (stopping at the
first non-option word, at a lone `-`, or after `--`) and return the parsed
option pairs and the remaining arguments. -/
def pygetopt : List String → Except String (List (String × String) × List String)
  | [] => Except.ok ([], [])
  | a :: rest =>
      if strStartsWith a "-" = false ∨ a = "-" then Except.ok ([], a :: rest)
      else if a = "--" then Except.ok ([], rest)
      else
        let step :=
          if strStartsWith a "--" then do_longs_one (String.mk (a.toList.drop 2))
          else do_shorts_cluster (a.toList.drop 1)
        match step with
        | Except.error msg => Except.error msg
        | Except.ok (os, none) =>
            match pygetopt rest with
            | Except.error msg => Except.error msg
            | Except.ok (os2, args) => Except.ok (os ++ os2, args)
        | Except.ok (os, some optname) =>
            match rest with
            | [] => Except.error ("option " ++ optname ++ " requires argument")
            | b :: rest2 =>
                match pygetopt rest2 with
                | Except.error msg => Except.error msg
                | Except.ok (os2, args) => Except.ok (os ++ [(optname, b)] ++ os2, args)

/-- Source lines 212-218: walk the parsed options in order; `-h`/`--help`
prints the usage and exits immediately (modelled as `none`), `-c`/`--command`
appends its argument to the command list. -/
def collectCommands : List (String × String) → Option (List String)
  | [] => some []
  | (o, a) :: rest =>
      if o = "-h" ∨ o = "--help" then none
      else if o = "-c" ∨ o = "--command" then
        (collectCommands rest).map (fun cs => a :: cs)
      else collectCommands rest

/-- How an invocation of `main` leaves the option-processing and setup
phase (source lines 206-234): a `GetoptError` propagating out, usage and
`sys.exit(2)` when no script argument is given, usage and `sys.exit()`
(status 0) on `-h`, an error line and `sys.exit(1)` when the script path
does not exist, or entry into the runner loop with the collected `-c`
commands, the rewritten `sys.argv`, and the updated `sys.path`. -/
inductive MainOutcome
  | getoptError (msg : String)
  | usageExit2
  | helpExit0
  | notFoundExit1 (mainpyfile : String)
  | proceed (commands : List String) (sys_argv : List String) (sys_path : List String)
deriving DecidableEq

/-- Source lines 206-234: the setup phase of `main`.  `fileExists` models
`os.path.exists`; `sys_argv` is the full process argument list (program
name first) and `sys_path` the module search path.  On success, `sys.argv`
becomes the remaining arguments (`args`, the script first) and
`sys.path[0]` is overwritten with the directory of the script. -/
def main_start (fileExists : String → Bool) (sys_argv sys_path : List String) : MainOutcome :=
  match pygetopt (sys_argv.drop 1) with
  | Except.error msg => MainOutcome.getoptError msg
  | Except.ok (opts, args) =>
      if args.isEmpty then MainOutcome.usageExit2
      else
        match collectCommands opts with
        | none => MainOutcome.helpExit0
        | some commands =>
            let mainpyfile := args.headD ""
            if fileExists mainpyfile then
              MainOutcome.proceed commands args (sys_path.set 0 (dirname mainpyfile))
            else MainOutcome.notFoundExit1 mainpyfile

/-- A sample non-sentinel hook state used by concrete evaluations. -/
def sampleState : SysState :=
  { excepthook := Hook.other 7, excepthook_ori := none,
    currentExcTb := none, lastTb := none }

/-- A sample ambient configuration used by concrete evaluations. -/
def sampleCfg : Config :=
  { def_colors := "Linux", exec_lines := [], acceptsContext := true, hasShell := true }

/-- A `SystemExit`-like exception: it does not derive from `Exception`. -/
def sysExitExc : PyExc :=
  { reprStr := "SystemExit(3)", isException := false, tb := 5 }

/-- A `ValueError`-like exception: it derives from `Exception`. -/
def valueErrorExc : PyExc :=
  { reprStr := "ValueError(\x27x\x27)", isException := true, tb := 9 }

theorem wrap_excepthook_eq (s : SysState) :
    (wrap_sys_excepthook s).excepthook = Hook.bdbQuitExcepthook := by
  unfold wrap_sys_excepthook
  split
  · rfl
  · rename_i h
    exact not_ne_iff.mp h

theorem wrap_fixed (s : SysState) (h : s.excepthook = Hook.bdbQuitExcepthook) :
    wrap_sys_excepthook s = s := by
  unfold wrap_sys_excepthook
  simp [h]

theorem wrap_ori_of_ne (s : SysState) (h : s.excepthook ≠ Hook.bdbQuitExcepthook) :
    (wrap_sys_excepthook s).excepthook_ori = some s.excepthook := by
  unfold wrap_sys_excepthook
  simp [h]

theorem wrap_currentExcTb (s : SysState) :
    (wrap_sys_excepthook s).currentExcTb = s.currentExcTb := by
  unfold wrap_sys_excepthook
  split <;> rfl

theorem post_mortem_fst (cfg : Config) (tb : Option Nat) (s : SysState) :
    (post_mortem cfg tb s).1 = wrap_sys_excepthook s := by
  unfold post_mortem
  split <;> rfl

theorem collectCommands_none (opts : List (String × String)) (a : String)
    (h : ("-h", a) ∈ opts) : collectCommands opts = none := by
  induction opts with
  | nil => cases h
  | cons p rest ih =>
      obtain ⟨o, b⟩ := p
      rcases List.mem_cons.mp h with heq | hmem
      · obtain ⟨ho, -⟩ := Prod.mk.injEq .. ▸ heq.symm
        unfold collectCommands
        simp [ho.symm]
      · unfold collectCommands
        by_cases h1 : o = "-h" ∨ o = "--help"

        · simp [h1]
        · by_cases h2 : o = "-c" ∨ o = "--command"
          · simp [h1, h2, ih hmem]
          · simp [h1, h2, ih hmem]

/-- Claim C1: the hook-installation guard `wrap_sys_excepthook` is
idempotent.  For every N ≥ 1, calling it N times from a state whose active
hook is not the sentinel leaves the sentinel installed as the global
exception hook, records the hook active before the first installation in
`excepthook_ori`, and that recorded original is never the sentinel itself
(so the sentinel never wraps itself). -/
theorem c1_hook_guard_idempotent (s : SysState) (n : Nat)
    (hs : s.excepthook ≠ Hook.bdbQuitExcepthook) (hn : 1 ≤ n) :
    (wrap_sys_excepthook^[n] s).excepthook = Hook.bdbQuitExcepthook ∧
    (wrap_sys_excepthook^[n] s).excepthook_ori = some s.excepthook ∧
    (wrap_sys_excepthook^[n] s).excepthook_ori ≠ some Hook.bdbQuitExcepthook := by
  cases n with
  | zero => omega
  | succ m =>
      have hfix : wrap_sys_excepthook (wrap_sys_excepthook s) = wrap_sys_excepthook s :=
        wrap_fixed _ (wrap_excepthook_eq s)
      have hit : wrap_sys_excepthook^[m + 1] s = wrap_sys_excepthook s := by
        rw [Function.iterate_succ_apply]
        exact Function.iterate_fixed hfix m
      rw [hit, wrap_ori_of_ne s hs]
      refine ⟨wrap_excepthook_eq s, rfl, ?_⟩
      simp [hs]

/-- Witness for C1 at a concrete input: three consecutive calls starting
from the sample state with hook `Hook.other 7`. -/
theorem c1_hook_guard_idempotent_witness :
    (wrap_sys_excepthook^[3] sampleState).excepthook = Hook.bdbQuitExcepthook ∧
    (wrap_sys_excepthook^[3] sampleState).excepthook_ori = some (Hook.other 7) ∧
    (wrap_sys_excepthook^[3] sampleState).excepthook_ori ≠ some Hook.bdbQuitExcepthook :=
  c1_hook_guard_idempotent sampleState 3 (by decide) (by decide)

/-- Counterexample to Claim C2: `run` (source lines 157-158) never calls
`wrap_sys_excepthook`, so after `run` returns from a state whose hook is
`Hook.other 7` the global exception hook is still `Hook.other 7`, not the
installed sentinel — contradicting the claim that every public entry point
installs the hook. -/
theorem c2_counterexample_run_skips_hook :
    (run sampleCfg "x = 1" sampleState).1.excepthook = Hook.other 7 ∧
    Hook.other 7 ≠ Hook.bdbQuitExcepthook := by
  exact ⟨rfl, by decide⟩

/-- Claim C2, amended: `set_trace` and `post_mortem` invoke the
exception-hook guard before obtaining a Debugger Instance, so after they
return the sentinel hook is installed; `pm` does so too when
`sys.last_traceback` is set, but when it is unset the attribute read raises
`AttributeError` before anything happens, so the call errors out with the
state untouched; `run`, `runcall` and `runeval` obtain their Debugger
Instance without invoking the guard and leave the interpreter state
entirely unchanged. -/
theorem c2_entry_points_hook_amended (cfg : Config) (s : SysState)
    (frame : Option Nat) (callerFrame context : Nat) (tb : Option Nat) (t : Nat)
    (statement expression : String) :
    (set_trace cfg frame callerFrame context s).1.excepthook = Hook.bdbQuitExcepthook ∧
    (post_mortem cfg tb s).1.excepthook = Hook.bdbQuitExcepthook ∧
    pm cfg { s with lastTb := some t } =
      Except.ok (post_mortem cfg (some t) { s with lastTb := some t }) ∧
    (post_mortem cfg (some t) { s with lastTb := some t }).1.excepthook =
      Hook.bdbQuitExcepthook ∧
    pm cfg { s with lastTb := none } = Except.error () ∧
    (run cfg statement s).1 = s ∧
    (runcall cfg s).1 = s ∧
    (runeval cfg expression s).1 = s := by
  refine ⟨wrap_excepthook_eq s, ?_, rfl, ?_, rfl, rfl, rfl, rfl⟩
  · rw [post_mortem_fst]
    exact wrap_excepthook_eq s
  · rw [post_mortem_fst]
    exact wrap_excepthook_eq _

/-- Claim C4: for every ambient configuration, every `context ≥ 1` and
every command list, the instance produced by `_init_pdb` has startup
commands `def_exec_lines ++ commands`, in that order, with no reordering
and no deduplication — in both the engine-accepts-context case and the
`TypeError` fallback. -/
theorem c4_init_pdb_startup_commands (cfg : Config) (context : Nat)
    (commands : List String) (_hc : 1 ≤ context) :
    (_init_pdb cfg context commands).rcLines = def_exec_lines cfg ++ commands := by
  unfold _init_pdb debugger_cls_with_context debugger_cls_no_context
  cases h : cfg.acceptsContext <;> simp [h]

/-- Witness for C4 at a concrete input: context 3 and two extra commands. -/
theorem c4_init_pdb_startup_commands_witness :
    (_init_pdb sampleCfg 3 ["b main.py:1", "continue"]).rcLines =
      def_exec_lines sampleCfg ++ ["b main.py:1", "continue"] :=
  c4_init_pdb_startup_commands sampleCfg 3 ["b main.py:1", "continue"] (by decide)

/-- Claim C7: calling `post_mortem` with no traceback argument while no
exception is currently being handled enters no interactive session (and,
the embedding being total, raises nothing): the event trace contains no
`interaction` event. -/
theorem c7_post_mortem_none_noop (cfg : Config) (s : SysState)
    (h : s.currentExcTb = none) :
    ((post_mortem cfg none s).2).countP isInteraction = 0 := by
  unfold post_mortem resolve_tb
  rw [wrap_currentExcTb, h]
  rfl

/-- Witness for C7 at a concrete input: the sample state handles no
exception. -/
theorem c7_post_mortem_none_noop_witness :
    ((post_mortem sampleCfg none sampleState).2).countP isInteraction = 0 :=
  c7_post_mortem_none_noop sampleCfg sampleState (by decide)

/-- Claim C10: even in its no-op case, `post_mortem` mutates process-wide
state: for every configuration, traceback argument and starting state, the
returned state has the sentinel installed as the global exception hook, and
the event trace begins with the construction and reset of a fresh Debugger
Instance — both happen before the traceback test. -/
theorem c10_post_mortem_always_installs_hook (cfg : Config) (tb : Option Nat)
    (s : SysState) :
    (post_mortem cfg tb s).1.excepthook = Hook.bdbQuitExcepthook ∧
    ∃ rest, (post_mortem cfg tb s).2 =
      Event.mkInstance (_init_pdb cfg 3 []) :: Event.resetInstance :: rest := by
  constructor
  · rw [post_mortem_fst]
    exact wrap_excepthook_eq s
  · unfold post_mortem
    split
    · exact ⟨[Event.interaction _], rfl⟩
    · exact ⟨[], rfl⟩

/-- Counterexample to Claim C3: when the script raises `SystemExit`, the
runner loop does NOT reach a terminal state — the `except SystemExit`
branch of source lines 244-247 only prints and falls through to the next
`while 1` iteration.  Concretely, with outcome list `[SystemExit 3,
completed-with-quit]` the loop control after the `SystemExit` iteration is
`again` and the script is executed twice. -/
theorem c3_counterexample_sysexit_loops :
    (loop_body "s.py" [] (RunOutcome.sysExit "3")).1 = LoopControl.again ∧
    (script_loop "s.py" [] [RunOutcome.sysExit "3", RunOutcome.completed true]).countP
      isRunScript = 2 := by
  exact ⟨rfl, by decide⟩

/-- Claim C3, amended: when the executed script raises `SystemExit`, the
runner prints the exit status and enters no post-mortem session, but it
does not finish: the loop goes around again and the next iteration
re-executes the script. -/
theorem c3_sysexit_amended (mainpyfile : String) (argvTail : List String)
    (status : String) (rest : List RunOutcome) :
    script_loop mainpyfile argvTail (RunOutcome.sysExit status :: rest) =
      Event.runScript ::
        Event.printOut ("The program exited via sys.exit(). Exit status: " ++ status) ::
        script_loop mainpyfile argvTail rest ∧
    (loop_body mainpyfile argvTail (RunOutcome.sysExit status)).1 = LoopControl.again ∧
    (loop_body mainpyfile argvTail (RunOutcome.sysExit status)).2.countP isInteraction = 0 := by
  refine ⟨?_, rfl, rfl⟩
  simp [script_loop, loop_body]

/-- Claim C5: when the script raises an uncaught exception (neither
`Restart` nor `SystemExit`), the runner prints the full traceback, enters
exactly one post-mortem session at that traceback, prints the
debugger-finished/restart notice, and the loop continues: the next
iteration re-executes the script from the top. -/
theorem c5_uncaught_post_mortem_restart (mainpyfile : String)
    (argvTail : List String) (t : Nat) (o : RunOutcome) (rest : List RunOutcome) :
    script_loop mainpyfile argvTail (RunOutcome.uncaught t :: o :: rest) =
      (Event.runScript :: uncaughtEvents mainpyfile t) ++
        script_loop mainpyfile argvTail (o :: rest) ∧
    (uncaughtEvents mainpyfile t).countP isInteraction = 1 ∧
    ∃ evs, script_loop mainpyfile argvTail (o :: rest) = Event.runScript :: evs := by
  refine ⟨?_, ?_, ⟨_, rfl⟩⟩
  · simp [script_loop, loop_body]
  · simp [uncaughtEvents, List.countP_cons, isInteraction]

/-- Counterexample to Claim C6: the scope helper of source lines 169-178
handles only `except Exception`.  An exception that does not derive from
`Exception` (here a `SystemExit`) escapes the scope unhandled: nothing is
printed, no post-mortem session is entered, and the exception propagates —
contradicting the claim that every exception raised inside the scope is
printed and suppressed. -/
theorem c6_counterexample_base_exception_escapes :
    (launch_ipdb_on_exception sampleCfg (some sysExitExc) sampleState).2.2 =
      some sysExitExc ∧
    (launch_ipdb_on_exception sampleCfg (some sysExitExc) sampleState).2.1 = [] := by
  exact ⟨rfl, rfl⟩

/-- Claim C6, amended: for every exception whose class derives from
`Exception`, the scope helper prints the exception representation to the
error stream exactly once, enters a post-mortem session on that exception
traceback, and suppresses the exception; on a normal (non-raising) exit it
has no effect.  Exceptions deriving only from `BaseException` propagate. -/
theorem c6_debug_scope_amended (cfg : Config) (s : SysState) (e : PyExc)
    (he : e.isException = true) :
    (launch_ipdb_on_exception cfg (some e) s).2.2 = none ∧
    (launch_ipdb_on_exception cfg (some e) s).2.1.countP isPrintErr = 1 ∧
    Event.interaction e.tb ∈ (launch_ipdb_on_exception cfg (some e) s).2.1 ∧
    launch_ipdb_on_exception cfg none s = (s, [], none) := by
  unfold launch_ipdb_on_exception post_mortem resolve_tb
  simp [he, List.countP_cons, isPrintErr]

/-- Witness for C6 at a concrete input: a `ValueError`-like exception is
handled and suppressed by the scope helper. -/
theorem c6_debug_scope_amended_witness :
    (launch_ipdb_on_exception sampleCfg (some valueErrorExc) sampleState).2.2 = none ∧
    (launch_ipdb_on_exception sampleCfg (some valueErrorExc) sampleState).2.1.countP
      isPrintErr = 1 ∧
    Event.interaction 9 ∈
      (launch_ipdb_on_exception sampleCfg (some valueErrorExc) sampleState).2.1 ∧
    launch_ipdb_on_exception sampleCfg none sampleState = (sampleState, [], none) :=
  c6_debug_scope_amended sampleCfg sampleState valueErrorExc (by decide)

/-- Counterexample to Claim C8: invoking the runner with the help flag but
no script path (`ipdb -h`) hits the empty-argument check of source lines
208-210 BEFORE the option loop, so it prints the usage and exits with
status 2, not 0. -/
theorem c8_counterexample_help_without_script :
    main_start (fun _ => true) ["ipdb", "-h"] ["p0"] = MainOutcome.usageExit2 ∧
    MainOutcome.usageExit2 ≠ MainOutcome.helpExit0 := by
  exact ⟨rfl, by decide⟩

/-- Claim C8, amended: when option parsing succeeds, the parsed options
include `-h`, and at least one positional (script) argument is present,
`main` prints the usage text and exits with status 0.  (With no positional
argument the exit status is 2, and a literal `--help` word is not in fact
recognized: the long-option table of source line 206 keeps its leading
dashes, so `--help` raises a `GetoptError`.) -/
theorem c8_help_flag_amended (fileExists : String → Bool)
    (sys_argv sys_path : List String) (opts : List (String × String))
    (args : List String) (a : String)
    (hget : pygetopt (sys_argv.drop 1) = Except.ok (opts, args))
    (hargs : args.isEmpty = false)
    (hmem : ("-h", a) ∈ opts) :
    main_start fileExists sys_argv sys_path = MainOutcome.helpExit0 := by
  unfold main_start
  rw [hget]
  simp [hargs, collectCommands_none opts a hmem]

/-- Witness for C8 at a concrete input: `ipdb -h s.py` exits with the
usage text and status 0. -/
theorem c8_help_flag_amended_witness :
    main_start (fun _ => true) ["ipdb", "-h", "s.py"] ["p0"] = MainOutcome.helpExit0 :=
  c8_help_flag_amended (fun _ => true) ["ipdb", "-h", "s.py"] ["p0"]
    [("-h", "")] ["s.py"] "" (by rfl) (by rfl) (by decide)

/-- Counterexample to Claim C9: the setup phase overwrites `sys.path[0]`
(source line 228: `sys.path[0] = os.path.dirname(mainpyfile)`) instead of
prepending: starting from search path `["pdbdir", "lib"]` and script
`d/s.py`, the resulting path is `["d", "lib"]` — its first element is the
script directory, but the previous first element `pdbdir` has been dropped,
so the directory was not prepended. -/
theorem c9_counterexample_path_replaced :
    main_start (fun _ => true) ["ipdb", "d/s.py", "arg1"] ["pdbdir", "lib"] =
      MainOutcome.proceed [] ["d/s.py", "arg1"] ["d", "lib"] ∧
    (["d", "lib"] : List String) ≠ "d" :: ["pdbdir", "lib"] := by
  exact ⟨rfl, by decide⟩

/-- Claim C9, amended: during setup the runner rewrites the argument list
so the debugged script sees itself as the program name (`sys.argv` becomes
the script path followed by its arguments), and REPLACES the first element
of the module search path with the script directory — so afterwards the
search path head is the script directory, while the previous head is
dropped and the length is unchanged. -/
theorem c9_setup_amended (fileExists : String → Bool) (prog script : String)
    (rest : List String) (p0 : String) (ps : List String)
    (hdash : strStartsWith script "-" = false)
    (hex : fileExists script = true) :
    main_start fileExists (prog :: script :: rest) (p0 :: ps) =
      MainOutcome.proceed [] (script :: rest) (dirname script :: ps) := by
  have hget : pygetopt ((prog :: script :: rest).drop 1) =
      Except.ok ([], script :: rest) := by
    unfold pygetopt
    simp [hdash]
  unfold main_start
  rw [hget]
  simp [collectCommands, hex]

/-- Witness for C9 at a concrete input: script `d/s.py` with one argument,
starting from search path `["pdbdir", "lib"]`. -/
theorem c9_setup_amended_witness :
    main_start (fun _ => true) ["ipdb", "d/s.py", "x"] ["pdbdir", "lib"] =
      MainOutcome.proceed [] ["d/s.py", "x"] ["d", "lib"] :=
  c9_setup_amended (fun _ => true) "ipdb" "d/s.py" ["x"] "pdbdir" ["lib"]
    (by rfl) rfl

end Ipdb
